import Mathlib

/-!
Verification of `balance_monitor.py` (layer-profit-monitor).

The program polls six REST endpoints per account, merges the results into a
timestamped record, and appends it to a per-account CSV file inside a
fixed-interval retry loop.  We give a shallow embedding of the pieces the
specification talks about: the field fetcher, the snapshot builder, the CSV
appender, the startup configuration check, and the monitor loop (modelled as
a trace-producing function over a schedule of per-cycle environment inputs).
Python values flowing out of `response.json()` are modelled by the `Json`
type; raising Python code is modelled with `Except Unit`.
-/

/-- JSON values as produced by `response.json()` (and, at the same time, the
Python values our extractors return: floats become `num`, strings `str`). -/
inductive Json where
  | null : Json
  | bool : Bool → Json
  | num : ℚ → Json
  | str : String → Json
  | arr : List Json → Json
  | obj : List (String × Json) → Json

/-- `j[k]` on a parsed JSON value: key lookup on a dict, raising (`error`)
on a missing key or a non-dict value, as Python does. -/
def getItem : Json → String → Except Unit Json
  | Json.obj fields, k =>
    match fields.lookup k with
    | some v => Except.ok v
    | none => Except.error ()
  | _, _ => Except.error ()

/-- `j[i]` on a parsed JSON value: list indexing, raising on out-of-range
or a non-list value. -/
def getIdx : Json → Nat → Except Unit Json
  | Json.arr elems, i =>
    match elems.get? i with
    | some v => Except.ok v
    | none => Except.error ()
  | _, _ => Except.error ()

/-- `j.get(k, d)`: dict lookup with a default; raises on a non-dict value
(Python raises `AttributeError` there). -/
def dictGet : Json → String → Json → Except Unit Json
  | Json.obj fields, k, d => Except.ok ((fields.lookup k).getD d)
  | _, _, _ => Except.error ()

/-- Numeric value of a list of decimal digit characters. -/
def digitsVal (cs : List Char) : Nat :=
  cs.foldl (fun a c => 10 * a + (c.toNat - '0'.toNat)) 0

/-- Python's `float(s)` on the decimal literals the upstream API serves:
optional sign, integer digits, optional fractional digits (exponent and
inf/nan forms are outside the model and conservatively raise).  Raises on
anything unparsable, as `float` raises `ValueError`. -/
def parseDecimal (s : String) : Except Unit ℚ :=
  let cs := s.trim.toList
  let signedTail : ℚ × List Char :=
    match cs with
    | '-' :: rest => (-1, rest)
    | '+' :: rest => (1, rest)
    | _ => (1, cs)
  let sign := signedTail.1
  let body := signedTail.2
  let intDigits := body.takeWhile Char.isDigit
  let rest := body.dropWhile Char.isDigit
  match rest with
  | [] =>
    if intDigits.isEmpty then Except.error ()
    else Except.ok (sign * (digitsVal intDigits : ℚ))
  | '.' :: frac =>
    let fracDigits := frac.takeWhile Char.isDigit
    let rest2 := frac.dropWhile Char.isDigit
    if rest2.isEmpty = false then Except.error ()
    else if intDigits.isEmpty && fracDigits.isEmpty then Except.error ()
    else Except.ok (sign * ((digitsVal intDigits : ℚ) +
      (digitsVal fracDigits : ℚ) / (10 : ℚ) ^ fracDigits.length))
  | _ => Except.error ()

/-- `float(j)` on a Python value coming from JSON. -/
def pyFloat : Json → Except Unit ℚ
  | Json.num q => Except.ok q
  | Json.bool b => Except.ok (if b then 1 else 0)
  | Json.str s => parseDecimal s
  | _ => Except.error ()

/-- `lambda x: x['balance']['amount']` -/
def extract_account_balance (x : Json) : Except Unit Json := do
  let b ← getItem x "balance"
  getItem b "amount"

/-- `lambda x: sum(float(reward['amount']) for reward in x.get('total', []))` -/
def extract_rewards (x : Json) : Except Unit Json := do
  let total ← dictGet x "total" (Json.arr [])
  match total with
  | Json.arr rewards => do
    let vals ← rewards.mapM (fun r => do pyFloat (← getItem r "amount"))
    Except.ok (Json.num (vals.foldl (· + ·) 0))
  | _ => Except.error ()

/-- `lambda x: x['rewards']['rewards'][0]['amount']` -/
def extract_outstanding_rewards (x : Json) : Except Unit Json := do
  let r1 ← getItem x "rewards"
  let r2 ← getItem r1 "rewards"
  let r3 ← getIdx r2 0
  getItem r3 "amount"

/-- `lambda x: sum(float(tip['amount']['amount']) for tip in x.get('tips', []))` -/
def extract_available_tips (x : Json) : Except Unit Json := do
  let tips ← dictGet x "tips" (Json.arr [])
  match tips with
  | Json.arr ts => do
    let vals ← ts.mapM (fun t => do pyFloat (← getItem (← getItem t "amount") "amount"))
    Except.ok (Json.num (vals.foldl (· + ·) 0))
  | _ => Except.error ()

/-- `lambda x: x['validator']['delegator_shares']` -/
def extract_delegator_shares (x : Json) : Except Unit Json := do
  let v ← getItem x "validator"
  getItem v "delegator_shares"

/-- `lambda x: sum(float(delegation['balance']['amount']) for delegation in x['delegation_responses'])` -/
def extract_delegations (x : Json) : Except Unit Json := do
  let drs ← getItem x "delegation_responses"
  match drs with
  | Json.arr ds => do
    let vals ← ds.mapM (fun d => do pyFloat (← getItem (← getItem d "balance") "amount"))
    Except.ok (Json.num (vals.foldl (· + ·) 0))
  | _ => Except.error ()

/-- The body of one HTTP response as seen by `response.json()`: either a
well-formed JSON document or malformed text on which `.json()` raises. -/
inductive Body where
  | malformed : String → Body
  | wellFormed : Json → Body

/-- Outcome of one `session.get(endpoint)`: the request itself may raise
(network failure), or a response with a status code and a body arrives. -/
inductive FetchOutcome where
  | netError : FetchOutcome
  | response : Nat → Body → FetchOutcome

/-- `fetch_endpoint(session, endpoint, column, extract_func)`.  The whole
body sits inside `try ... except Exception`, so the function is total:
non-200 statuses return `(column, '')` directly, and a raised error
(network, `.json()`, or the extraction rule) is caught and also yields
`(column, '')`. -/
def fetch_endpoint (outcome : FetchOutcome) (column : String)
    (extract_func : Json → Except Unit Json) : String × Json :=
  match outcome with
  | FetchOutcome.netError => (column, Json.str "")
  | FetchOutcome.response status body =>
    if status ≠ 200 then (column, Json.str "")
    else
      match body with
      | Body.malformed _ => (column, Json.str "")
      | Body.wellFormed data =>
        match extract_func data with
        | Except.error _ => (column, Json.str "")
        | Except.ok value => (column, value)

/-- A fetch "fails" when any of the failure paths of `fetch_endpoint` is
taken: network error, non-200 status, malformed body, or the extraction
rule raising. -/
def fetchFails (outcome : FetchOutcome) (extract_func : Json → Except Unit Json) : Bool :=
  match outcome with
  | FetchOutcome.netError => true
  | FetchOutcome.response status body =>
    if status ≠ 200 then true
    else
      match body with
      | Body.malformed _ => true
      | Body.wellFormed data =>
        match extract_func data with
        | Except.error _ => true
        | Except.ok _ => false

/-- One entry of the `ACCOUNTS` list after the startup check has passed:
`name`, `address` and `valoper_address` are all present and non-empty. -/
structure Account where
  name : String
  address : String
  valoper_address : String

/-- `base_url` in `fetch_data_for_account`. -/
def base_url : String := "https://info.layer-node.com"

/-- The `endpoints` list of `fetch_data_for_account`: six field
specifications `(endpoint, column, extract_func)` in source order. -/
def endpoints (account : Account) : List (String × String × (Json → Except Unit Json)) :=
  [ (base_url ++ "/cosmos/bank/v1beta1/balances/" ++ account.address ++ "/by_denom?denom=loya",
     "account_balance", extract_account_balance),
    (base_url ++ "/cosmos/distribution/v1beta1/delegators/" ++ account.address ++ "/rewards",
     "rewards", extract_rewards),
    (base_url ++ "/cosmos/distribution/v1beta1/validators/" ++ account.valoper_address ++ "/outstanding_rewards",
     "outstanding_rewards", extract_outstanding_rewards),
    (base_url ++ "/tellor-io/layer/reporter/available-tips/" ++ account.address,
     "available-tips", extract_available_tips),
    (base_url ++ "/cosmos/staking/v1beta1/validators/" ++ account.valoper_address,
     "delegator_shares", extract_delegator_shares),
    (base_url ++ "/cosmos/staking/v1beta1/delegations/" ++ account.address,
     "delegations", extract_delegations) ]

/-- A Snapshot: the `results` dict of `fetch_data_for_account`, as an
association list in Python dict insertion order (`timestamp` first, then
one entry per `gather`ed task in task order). -/
abbrev Snapshot := List (String × Json)

/-- `fetch_data_for_account(account)`.  The network is modelled as a map
from endpoint URL to the outcome of the one GET; `now` is the formatted
`datetime.now()` string.  `asyncio.gather` returns results in task order,
so the dict is built in the `endpoints` list order. -/
def fetch_data_for_account (net : String → FetchOutcome) (account : Account)
    (now : String) : Snapshot :=
  ("timestamp", Json.str now) ::
    (endpoints account).map (fun e => fetch_endpoint (net e.1) e.2.1 e.2.2)

/-- The column names of a Snapshot in dict order (`data.keys()`). -/
def snapshotKeys (s : Snapshot) : List String := s.map Prod.fst

/-- The fixed header: `timestamp` plus the six configured columns, in the
order the `results` dict is built. -/
def fixedKeys : List String :=
  ["timestamp", "account_balance", "rewards", "outstanding_rewards",
   "available-tips", "delegator_shares", "delegations"]

/-- A CSV file at one path: `none` when the path does not exist, otherwise
the list of rows already written (each row a list of cells). -/
abbrev CsvFile := Option (List (List Json))

/-- `save_to_csv(data, filename)`.  `file_exists` is checked before the
append-mode open (which creates a missing file empty); a header row
(`data.keys()`) is written only when the path did not exist; then one data
row with the values in `fieldnames` order. -/
def save_to_csv (data : Snapshot) (file : CsvFile) : CsvFile :=
  let file_exists := file.isSome
  let contents := file.getD []
  let header : List Json := data.map (fun p => Json.str p.1)
  let row : List Json := data.map Prod.snd
  some (contents ++ (if file_exists then [row] else [header, row]))

/-- Writing a sequence of snapshots to the same path, one
`save_to_csv` call each. -/
def save_all (snaps : List Snapshot) (file : CsvFile) : CsvFile :=
  snaps.foldl (fun f s => save_to_csv s f) file

/-- One entry of the `ACCOUNTS` list as built from `os.getenv` (each field
`none` when the environment variable is unset). -/
structure EnvAccount where
  name : Option String
  address : Option String
  valoper_address : Option String
  deriving DecidableEq

/-- Python truthiness of an `os.getenv` result: `None` and `''` are falsy. -/
def truthy : Option String → Bool
  | none => false
  | some s => !s.isEmpty

/-- `all(account.values())` for one account. -/
def accountValuesOk (a : EnvAccount) : Bool :=
  truthy a.name && truthy a.address && truthy a.valoper_address

/-- The module-level startup check: `for account in ACCOUNTS: if not
all(account.values()): raise ValueError(...)`. -/
def validate_accounts : List EnvAccount → Except String Unit
  | [] => Except.ok ()
  | a :: rest =>
    if accountValuesOk a then validate_accounts rest
    else Except.error ("Missing required environment variables for account "
      ++ a.name.getD "None" ++ ". Please check your .env file.")

/-- What startup does with the configuration: the `ValueError` raised at
module load halts the process before `main()`; otherwise one monitor loop
per configured account is launched. -/
inductive StartupResult where
  | halted : String → StartupResult
  | monitoringStarted : Nat → StartupResult

/-- Program startup: validate all accounts, then (and only then) launch
the monitor loops. -/
def program_startup (accounts : List EnvAccount) : StartupResult :=
  match validate_accounts accounts with
  | Except.error msg => StartupResult.halted msg
  | Except.ok () => StartupResult.monitoringStarted accounts.length

/-- Where, inside one `try` block of `monitor_account`, an exception is
raised: during `fetch_data_for_account` or during `save_to_csv`. -/
inductive RaiseSite where
  | fetchSite : RaiseSite
  | saveSite : RaiseSite
  deriving DecidableEq

/-- The environment of one cycle of `monitor_account`: the value
`shutdown_event.is_set()` returns at the loop condition, and whether (and
where) the body raises this cycle. -/
structure CycleInput where
  shutdown : Bool
  raises : Option RaiseSite
  deriving DecidableEq

/-- Observable events of `monitor_account`, in program order: reads of the
shutdown signal, the start and completion of the snapshot build and of the
CSV write, the two `print` calls, and the `asyncio.sleep` calls (argument
in seconds). -/
inductive Event where
  | readSignal : Bool → Event
  | fetchAttempt : Event
  | fetchDone : Event
  | writeAttempt : Event
  | writeDone : Event
  | logSaved : Event
  | logError : Event
  | sleep : Nat → Event
  deriving DecidableEq

/-- The two states of the loop after consuming a schedule: still running
(it would check the signal again) or stopped (the `while` exited). -/
inductive LoopStatus where
  | running : LoopStatus
  | stopped : LoopStatus
  deriving DecidableEq

/-- The events of one non-shutdown cycle body.  With no exception the body
runs fetch, write, the success `print`, and `asyncio.sleep(300)` — all
inside the `try`.  An exception aborts the body at its raise site and the
`except` branch prints the error and runs `asyncio.sleep(60)`. -/
def cycleEvents : Option RaiseSite → List Event
  | some RaiseSite.fetchSite =>
    [Event.fetchAttempt, Event.logError, Event.sleep 60]
  | some RaiseSite.saveSite =>
    [Event.fetchAttempt, Event.fetchDone, Event.writeAttempt,
     Event.logError, Event.sleep 60]
  | none =>
    [Event.fetchAttempt, Event.fetchDone, Event.writeAttempt,
     Event.writeDone, Event.logSaved, Event.sleep 300]

/-- `monitor_account`, run against a finite schedule of cycle
environments: each schedule entry is consumed by one evaluation of the
`while` condition.  Returns the event trace and whether the loop has
exited.  An empty remaining schedule leaves the loop `running` (it would
poll the signal again). -/
def monitor_run : List CycleInput → List Event × LoopStatus
  | [] => ([], LoopStatus.running)
  | c :: rest =>
    if c.shutdown then ([Event.readSignal true], LoopStatus.stopped)
    else
      let t := monitor_run rest
      (Event.readSignal false :: (cycleEvents c.raises ++ t.1), t.2)

/-- Is this event a read of the shutdown signal? -/
def isRead : Event → Bool
  | Event.readSignal _ => true
  | _ => false

/-- Is this event a sleep? -/
def isSleep : Event → Bool
  | Event.sleep _ => true
  | _ => false

/-- Number of shutdown-signal reads in a trace. -/
def countReads (evs : List Event) : Nat := evs.countP isRead

/-- Number of evaluations of the `while` condition a schedule causes: one
per entry up to and including the first entry with the signal set. -/
def checksCount : List CycleInput → Nat
  | [] => 0
  | c :: rest => if c.shutdown then 1 else 1 + checksCount rest

/-- Every sleep event in the trace is immediately preceded by a read of
the shutdown signal. -/
def sleepsPrecededByRead : List Event → Bool
  | a :: b :: rest => (!isSleep b || isRead a) && sleepsPrecededByRead (b :: rest)
  | _ => true

/-- Every sleep event in the trace that is followed by anything is
followed immediately by a read of the shutdown signal. -/
def sleepsFollowedByRead : List Event → Bool
  | a :: b :: rest => (!isSleep a || isRead b) && sleepsFollowedByRead (b :: rest)
  | _ => true

/-! ## Helper lemmas -/

theorem fetch_endpoint_of_fails (o : FetchOutcome) (c : String)
    (f : Json → Except Unit Json) (h : fetchFails o f = true) :
    fetch_endpoint o c f = (c, Json.str "") := by
  cases o with
  | netError => rfl
  | response status body =>
    by_cases hs : status = 200
    · subst hs
      cases body with
      | malformed _ => simp [fetch_endpoint]
      | wellFormed data =>
        cases hf : f data with
        | error _ => simp [fetch_endpoint, hf]
        | ok v =>
          exfalso
          simp [fetchFails, hf] at h
    · simp [fetch_endpoint, hs]

theorem fetch_endpoint_of_ok (status : Nat) (j : Json) (c : String)
    (f : Json → Except Unit Json) (v : Json)
    (hs : status = 200) (hf : f j = Except.ok v) :
    fetch_endpoint (FetchOutcome.response status (Body.wellFormed j)) c f = (c, v) := by
  subst hs
  simp [fetch_endpoint, hf]

theorem fetch_endpoint_fst (o : FetchOutcome) (c : String)
    (f : Json → Except Unit Json) : (fetch_endpoint o c f).1 = c := by
  cases o with
  | netError => rfl
  | response status body =>
    by_cases hs : status = 200
    · subst hs
      cases body with
      | malformed _ => simp [fetch_endpoint]
      | wellFormed data => cases hf : f data <;> simp [fetch_endpoint, hf]
    · simp [fetch_endpoint, hs]

theorem fetch_data_keys (net : String → FetchOutcome) (a : Account) (now : String) :
    snapshotKeys (fetch_data_for_account net a now) = fixedKeys := by
  simp [snapshotKeys, fetch_data_for_account, endpoints, fixedKeys, fetch_endpoint_fst]

theorem save_all_existing (snaps : List Snapshot) (rows : List (List Json)) :
    save_all snaps (some rows) =
      some (rows ++ snaps.map (fun s => s.map Prod.snd)) := by
  induction snaps generalizing rows with
  | nil => simp [save_all]
  | cons s rest ih =>
    simp only [save_all, List.foldl_cons] at ih ⊢
    rw [show save_to_csv s (some rows) = some (rows ++ [s.map Prod.snd]) from rfl, ih]
    simp

theorem validate_accounts_ok_iff (accounts : List EnvAccount) :
    validate_accounts accounts = Except.ok () ↔
      ∀ a ∈ accounts, accountValuesOk a = true := by
  induction accounts with
  | nil => simp [validate_accounts]
  | cons a rest ih =>
    by_cases h : accountValuesOk a = true
    · simp [validate_accounts, h, ih]
    · simp [validate_accounts, h]

/-! ## Claim theorems -/

/-- C1: `fetch_endpoint` never propagates an exception to its caller: for
every request outcome (network failure, any status code, malformed body)
and every extraction rule, it returns a defined pair — `(column, "")` on
every failure path and `(column, extracted value)` exactly when the status
is 200, the body parses, and the extraction rule succeeds.  (Totality of
the Lean function is the never-throws guarantee: every Python exception
path is a value-level branch here.) -/
theorem c1_fetch_endpoint_never_throws (o : FetchOutcome) (c : String)
    (f : Json → Except Unit Json) :
    (fetchFails o f = true ∧ fetch_endpoint o c f = (c, Json.str "")) ∨
    (∃ j v, o = FetchOutcome.response 200 (Body.wellFormed j) ∧
      f j = Except.ok v ∧ fetch_endpoint o c f = (c, v)) := by
  cases o with
  | netError => exact Or.inl ⟨rfl, rfl⟩
  | response status body =>
    by_cases hs : status = 200
    · subst hs
      cases body with
      | malformed raw =>
        exact Or.inl ⟨rfl, by simp [fetch_endpoint]⟩
      | wellFormed data =>
        cases hf : f data with
        | error u =>
          refine Or.inl ⟨?_, by simp [fetch_endpoint, hf]⟩
          simp [fetchFails, hf]
        | ok v =>
          exact Or.inr ⟨data, v, rfl, hf, by simp [fetch_endpoint, hf]⟩
    · refine Or.inl ⟨?_, by simp [fetch_endpoint, hs]⟩
      simp [fetchFails, hs]

/-- C6 counterexample: the claim says a 200 response whose body is missing
the expected extraction path — "e.g. a required key absent or a referenced
list empty" — always yields `""`.  For the `delegations` field
specification, a 200 response with body `{"delegation_responses": []}`
(the referenced list empty) yields the number `0.0`, not `""`: the
`sum(...)` in the extraction rule returns `0.0` over an empty list. -/
theorem c6_counterexample :
    fetch_endpoint
      (FetchOutcome.response 200
        (Body.wellFormed (Json.obj [("delegation_responses", Json.arr [])])))
      "delegations" extract_delegations = ("delegations", Json.num 0) ∧
    Json.num 0 ≠ Json.str "" ∧
    (base_url ++ "/cosmos/staking/v1beta1/delegations/" ++ "addr1",
      "delegations", extract_delegations) ∈
        endpoints ⟨"A", "addr1", "val1"⟩ := by
  refine ⟨rfl, ?_, by simp [endpoints]⟩
  intro h
  cases h

/-- C6 (amended): for every field specification of an account, a 200
response with a well-formed JSON body on which the extraction rule raises
yields `(column, "")`, and one on which it succeeds yields the extracted
value; the fetch never raises either way.  (Extraction rules that handle a
missing or empty collection themselves — the three `sum(...)`-based rules —
succeed with the numeric sum, e.g. `0.0`, instead of `""`.) -/
theorem c6_missing_path_extraction (a : Account)
    (e : String × String × (Json → Except Unit Json)) (_he : e ∈ endpoints a)
    (j : Json) :
    (e.2.2 j = Except.error () →
      fetch_endpoint (FetchOutcome.response 200 (Body.wellFormed j)) e.2.1 e.2.2 =
        (e.2.1, Json.str "")) ∧
    (∀ v, e.2.2 j = Except.ok v →
      fetch_endpoint (FetchOutcome.response 200 (Body.wellFormed j)) e.2.1 e.2.2 =
        (e.2.1, v)) := by
  constructor
  · intro hf
    exact fetch_endpoint_of_fails _ _ _ (by simp [fetchFails, hf])
  · intro v hf
    exact fetch_endpoint_of_ok 200 j e.2.1 e.2.2 v rfl hf

/-- C6 (amended) witness: the `account_balance` specification on body `{}`
(key `balance` absent, so the rule raises `KeyError`) yields `""`. -/
theorem c6_missing_path_extraction_witness :
    fetch_endpoint (FetchOutcome.response 200 (Body.wellFormed (Json.obj [])))
      "account_balance" extract_account_balance = ("account_balance", Json.str "") :=
  (c6_missing_path_extraction ⟨"A", "addr1", "val1"⟩
    (base_url ++ "/cosmos/bank/v1beta1/balances/" ++ "addr1" ++ "/by_denom?denom=loya",
      "account_balance", extract_account_balance)
    (by simp [endpoints]) (Json.obj [])).1 rfl

/-- C7: `save_to_csv` on a path that already exists leaves the existing
rows unchanged as a prefix and appends exactly one data row — the
snapshot's values in dict order — and never a header row. -/
theorem c7_append_preserves_existing (data : Snapshot) (rows : List (List Json)) :
    save_to_csv data (some rows) = some (rows ++ [data.map Prod.snd]) := rfl

/-- C10: a path that exists with an empty (zero-row) file gets only the
data row and no header — the header decision reads only the path's
existence (`Path(filename).exists()`), never the contents, which the
contrast with the non-existent-path case makes explicit. -/
theorem c10_empty_existing_file_no_header (data : Snapshot) :
    save_to_csv data (some []) = some [data.map Prod.snd] ∧
    save_to_csv data none =
      some [data.map (fun p => Json.str p.1), data.map Prod.snd] :=
  ⟨rfl, rfl⟩

/-- C2: for every account, every network behaviour (any subset of the six
fetches failing) and every timestamp, the snapshot built by
`fetch_data_for_account` has exactly the keys `timestamp`,
`account_balance`, `rewards`, `outstanding_rewards`, `available-tips`,
`delegator_shares`, `delegations` — in that dict order, one entry per
configured column plus the timestamp — and every failed column holds the
empty string. -/
theorem c2_snapshot_complete (net : String → FetchOutcome) (a : Account)
    (now : String) :
    snapshotKeys (fetch_data_for_account net a now) = fixedKeys ∧
    ∀ e ∈ endpoints a, fetchFails (net e.1) e.2.2 = true →
      (e.2.1, Json.str "") ∈ fetch_data_for_account net a now := by
  refine ⟨fetch_data_keys net a now, ?_⟩
  intro e he hfail
  have hmem : fetch_endpoint (net e.1) e.2.1 e.2.2 ∈
      (endpoints a).map (fun e => fetch_endpoint (net e.1) e.2.1 e.2.2) :=
    List.mem_map_of_mem _ he
  rw [fetch_endpoint_of_fails _ _ _ hfail] at hmem
  exact List.mem_cons_of_mem _ hmem

/-- C2 witness: with every request failing at the network level, the
snapshot for a concrete account has the seven fixed keys and e.g. its
`account_balance` entry holds the empty string. -/
theorem c2_snapshot_complete_witness :
    snapshotKeys (fetch_data_for_account (fun _ => FetchOutcome.netError)
        ⟨"A", "addr1", "val1"⟩ "2024-01-01 00:00:00") = fixedKeys ∧
    ("account_balance", Json.str "") ∈
      fetch_data_for_account (fun _ => FetchOutcome.netError)
        ⟨"A", "addr1", "val1"⟩ "2024-01-01 00:00:00" :=
  ⟨(c2_snapshot_complete (fun _ => FetchOutcome.netError)
      ⟨"A", "addr1", "val1"⟩ "2024-01-01 00:00:00").1,
   (c2_snapshot_complete (fun _ => FetchOutcome.netError)
      ⟨"A", "addr1", "val1"⟩ "2024-01-01 00:00:00").2
     (base_url ++ "/cosmos/bank/v1beta1/balances/" ++ "addr1" ++ "/by_denom?denom=loya",
       "account_balance", extract_account_balance)
     (by simp [endpoints]) rfl⟩

/-- C3: writing a non-empty sequence of snapshots (each carrying the fixed
key order, as every snapshot built by `fetch_data_for_account` does) to an
initially non-existent path yields exactly one header row — the column
names in the fixed order — followed by one data row per snapshot, each
row's values in the same order as the header. -/
theorem c3_fresh_path_header_then_rows (snaps : List Snapshot)
    (hne : snaps ≠ [])
    (hkeys : ∀ s ∈ snaps, snapshotKeys s = fixedKeys) :
    save_all snaps none =
      some (fixedKeys.map Json.str :: snaps.map (fun s => s.map Prod.snd)) := by
  cases snaps with
  | nil => exact absurd rfl hne
  | cons s rest =>
    have hhead : s.map (fun p => Json.str p.1) = fixedKeys.map Json.str := by
      have := hkeys s (List.mem_cons_self s rest)
      calc s.map (fun p => Json.str p.1)
          = (s.map Prod.fst).map Json.str := by simp [Function.comp]
        _ = fixedKeys.map Json.str := by rw [← this]; rfl
    have hstep : save_to_csv s none =
        some [s.map (fun p => Json.str p.1), s.map Prod.snd] := rfl
    simp only [save_all, List.foldl_cons] at *
    rw [hstep, hhead]
    have := save_all_existing rest [fixedKeys.map Json.str, s.map Prod.snd]
    simp only [save_all] at this
    rw [this]
    simp

/-- C3 witness: two all-failed snapshots written to a fresh path give a
header row and two data rows, in order. -/
theorem c3_fresh_path_header_then_rows_witness :
    save_all
      [fetch_data_for_account (fun _ => FetchOutcome.netError)
          ⟨"A", "addr1", "val1"⟩ "t1",
       fetch_data_for_account (fun _ => FetchOutcome.netError)
          ⟨"A", "addr1", "val1"⟩ "t2"] none =
      some (fixedKeys.map Json.str ::
        ([fetch_data_for_account (fun _ => FetchOutcome.netError)
            ⟨"A", "addr1", "val1"⟩ "t1",
          fetch_data_for_account (fun _ => FetchOutcome.netError)
            ⟨"A", "addr1", "val1"⟩ "t2"].map (fun s => s.map Prod.snd))) :=
  c3_fresh_path_header_then_rows _ (by simp)
    (by
      intro s hs
      rcases List.mem_cons.mp hs with h | hs
      · rw [h]; rfl
      rcases List.mem_cons.mp hs with h | hs
      · rw [h]; rfl
      cases hs)

/-- C8: if any configured account is missing any of the three fields (or
has it empty), startup halts with the configuration `ValueError` before
any monitor loop is launched; if all fields of all accounts are non-empty,
startup launches one monitor loop per account. -/
theorem c8_startup_validation (accounts : List EnvAccount) :
    ((∃ a ∈ accounts, accountValuesOk a = false) →
      ∃ msg, program_startup accounts = StartupResult.halted msg) ∧
    ((∀ a ∈ accounts, accountValuesOk a = true) →
      program_startup accounts = StartupResult.monitoringStarted accounts.length) := by
  constructor
  · intro hbad
    cases hv : validate_accounts accounts with
    | error msg => exact ⟨msg, by simp [program_startup, hv]⟩
    | ok u =>
      exfalso
      obtain ⟨a, ha, hfalse⟩ := hbad
      cases u
      have := (validate_accounts_ok_iff accounts).mp hv a ha
      rw [this] at hfalse
      cases hfalse
  · intro hgood
    have hv := (validate_accounts_ok_iff accounts).mpr hgood
    simp [program_startup, hv]

/-- C8 witness: a configuration with a missing `valoper_address` halts,
and a fully populated one starts one loop per account. -/
theorem c8_startup_validation_witness :
    (∃ msg, program_startup [⟨some "A", some "addr1", none⟩] =
      StartupResult.halted msg) ∧
    program_startup [⟨some "A", some "addr1", some "val1"⟩] =
      StartupResult.monitoringStarted 1 :=
  ⟨(c8_startup_validation [⟨some "A", some "addr1", none⟩]).1 (by decide),
   (c8_startup_validation [⟨some "A", some "addr1", some "val1"⟩]).2 (by decide)⟩

theorem monitor_run_head_shape (inputs : List CycleInput) :
    (monitor_run inputs).1 = [] ∨
    ∃ b t, (monitor_run inputs).1 = Event.readSignal b :: t := by
  cases inputs with
  | nil => exact Or.inl rfl
  | cons c rest =>
    refine Or.inr ?_
    cases hs : c.shutdown
    · exact ⟨false, cycleEvents c.raises ++ (monitor_run rest).1,
        by simp [monitor_run, hs]⟩
    · exact ⟨true, [], by simp [monitor_run, hs]⟩

theorem monitor_run_sleeps_followed_by_read (inputs : List CycleInput) :
    sleepsFollowedByRead (monitor_run inputs).1 = true := by
  induction inputs with
  | nil => rfl
  | cons c rest ih =>
    cases hs : c.shutdown
    · rcases monitor_run_head_shape rest with h0 | ⟨b, t, hbt⟩
      · rcases hr : c.raises with _ | r
        · simp [monitor_run, hs, hr, h0, cycleEvents, sleepsFollowedByRead, isSleep, isRead]
        · cases r <;>
            simp [monitor_run, hs, hr, h0, cycleEvents, sleepsFollowedByRead, isSleep, isRead]
      · have ih' : sleepsFollowedByRead (Event.readSignal b :: t) = true := by
          rw [← hbt]; exact ih
        rcases hr : c.raises with _ | r
        · simpa [monitor_run, hs, hr, hbt, cycleEvents, sleepsFollowedByRead,
            isSleep, isRead] using ih'
        · cases r <;>
            simpa [monitor_run, hs, hr, hbt, cycleEvents, sleepsFollowedByRead,
              isSleep, isRead] using ih'
    · simp [monitor_run, hs, sleepsFollowedByRead]

theorem monitor_run_count_reads (inputs : List CycleInput) :
    countReads (monitor_run inputs).1 = checksCount inputs := by
  induction inputs with
  | nil => rfl
  | cons c rest ih =>
    cases hs : c.shutdown
    · rcases hr : c.raises with _ | r
      · simp [monitor_run, hs, hr, countReads, checksCount, cycleEvents,
          List.countP_cons, List.countP_append, isRead] at ih ⊢
        omega
      · cases r <;>
          (simp [monitor_run, hs, hr, countReads, checksCount, cycleEvents,
            List.countP_cons, List.countP_append, isRead] at ih ⊢; omega)
    · simp [monitor_run, hs, countReads, checksCount, List.countP_cons, isRead]

theorem monitor_run_stopped_has_shutdown (inputs : List CycleInput)
    (h : (monitor_run inputs).2 = LoopStatus.stopped) :
    ∃ c ∈ inputs, c.shutdown = true := by
  induction inputs with
  | nil => cases h
  | cons c rest ih =>
    cases hs : c.shutdown
    · rw [show (monitor_run (c :: rest)).2 = (monitor_run rest).2 by
        simp [monitor_run, hs]] at h
      obtain ⟨c', hc', hsc'⟩ := ih h
      exact ⟨c', List.mem_cons_of_mem _ hc', hsc'⟩
    · exact ⟨c, List.mem_cons_self c rest, hs⟩

/-- C4: in every non-shutdown cycle of `monitor_account`, an exception
raised while building the snapshot or while appending it to the CSV leads
to the error being logged and a 60-second sleep, after which the loop
continues exactly as it would from the next iteration; a successful cycle
logs, sleeps 300 seconds, and continues likewise.  The loop's status can
only become `stopped` when some cycle observed the shutdown signal set. -/
theorem c4_monitor_loop_recovery :
    (∀ (r : RaiseSite) (rest : List CycleInput),
      monitor_run (⟨false, some r⟩ :: rest) =
        (Event.readSignal false :: (cycleEvents (some r) ++ (monitor_run rest).1),
          (monitor_run rest).2) ∧
      Event.logError ∈ cycleEvents (some r) ∧
      Event.sleep 60 ∈ cycleEvents (some r)) ∧
    (∀ rest : List CycleInput,
      monitor_run (⟨false, none⟩ :: rest) =
        (Event.readSignal false :: (cycleEvents none ++ (monitor_run rest).1),
          (monitor_run rest).2) ∧
      Event.logSaved ∈ cycleEvents none ∧
      Event.sleep 300 ∈ cycleEvents none) ∧
    (∀ inputs : List CycleInput,
      (monitor_run inputs).2 = LoopStatus.stopped →
      ∃ c ∈ inputs, c.shutdown = true) := by
  refine ⟨?_, ?_, fun inputs h => monitor_run_stopped_has_shutdown inputs h⟩
  · intro r rest
    exact ⟨rfl, by cases r <;> decide, by cases r <;> decide⟩
  · intro rest
    exact ⟨rfl, by decide, by decide⟩

/-- C4 witness: the third part applied to the one-cycle schedule whose
signal is set. -/
theorem c4_monitor_loop_recovery_witness :
    ∃ c ∈ ([⟨true, none⟩] : List CycleInput), c.shutdown = true :=
  c4_monitor_loop_recovery.2.2 [⟨true, none⟩] rfl

/-- C5: a cycle that begins with the shutdown signal set performs no fetch
and no CSV write — its whole trace is the one signal read — and the loop
stops; and as long as every condition check sees the signal unset, the
loop is still running after any finite schedule. -/
theorem c5_shutdown_terminates (r : Option RaiseSite) (rest : List CycleInput) :
    (monitor_run (⟨true, r⟩ :: rest) = ([Event.readSignal true], LoopStatus.stopped) ∧
      Event.fetchAttempt ∉ (monitor_run (⟨true, r⟩ :: rest)).1 ∧
      Event.writeAttempt ∉ (monitor_run (⟨true, r⟩ :: rest)).1) ∧
    (∀ inputs : List CycleInput,
      (∀ c ∈ inputs, c.shutdown = false) →
      (monitor_run inputs).2 = LoopStatus.running) := by
  constructor
  · refine ⟨rfl, ?_, ?_⟩ <;> · rw [show monitor_run (⟨true, r⟩ :: rest) =
      ([Event.readSignal true], LoopStatus.stopped) from rfl]; decide
  · intro inputs h
    induction inputs with
    | nil => rfl
    | cons c rest' ih =>
      have hc : c.shutdown = false := h c (List.mem_cons_self c rest')
      rw [show (monitor_run (c :: rest')).2 = (monitor_run rest').2 by
        simp [monitor_run, hc]]
      exact ih (fun c' hc' => h c' (List.mem_cons_of_mem _ hc'))

/-- C5 witness: instantiated at a shutdown-first schedule, and the
running-forever part at an all-unset two-cycle schedule. -/
theorem c5_shutdown_terminates_witness :
    monitor_run [⟨true, none⟩] = ([Event.readSignal true], LoopStatus.stopped) ∧
    (monitor_run [⟨false, none⟩, ⟨false, some RaiseSite.saveSite⟩]).2 =
      LoopStatus.running :=
  ⟨(c5_shutdown_terminates none []).1.1,
   (c5_shutdown_terminates none []).2
     [⟨false, none⟩, ⟨false, some RaiseSite.saveSite⟩] (by decide)⟩

/-- C9 counterexample: in a one-cycle schedule with the signal unset and
no exception, the trace contains a sleep (the 300-second one) that is not
immediately preceded by a read of the shutdown signal — the event before
it is the success log — so the loop does not poll the signal immediately
before entering the sleep, contrary to the claim. -/
theorem c9_counterexample :
    Event.sleep 300 ∈ (monitor_run [⟨false, none⟩]).1 ∧
    sleepsPrecededByRead (monitor_run [⟨false, none⟩]).1 = false := by
  exact ⟨by decide, by decide⟩

/-- C9 (amended): the shutdown signal is read exactly once per evaluation
of the loop condition — at the top of each cycle, before any work — and
never again inside the cycle; in particular, since that check is the first
event after the previous cycle's sleep ends, every sleep that is followed
by anything is followed immediately by a signal read, but no separate read
happens immediately before entering a sleep. -/
theorem c9_signal_polled_once_per_cycle :
    (∀ (c : CycleInput) (rest : List CycleInput),
      ((monitor_run (c :: rest)).1).head? = some (Event.readSignal c.shutdown)) ∧
    (∀ inputs : List CycleInput,
      sleepsFollowedByRead (monitor_run inputs).1 = true) ∧
    (∀ inputs : List CycleInput,
      countReads (monitor_run inputs).1 = checksCount inputs) := by
  refine ⟨?_, monitor_run_sleeps_followed_by_read, monitor_run_count_reads⟩
  intro c rest
  cases hs : c.shutdown
  · have hrw : monitor_run (c :: rest) =
        (Event.readSignal false :: (cycleEvents c.raises ++ (monitor_run rest).1),
          (monitor_run rest).2) := by
      simp [monitor_run, hs]
    rw [hrw]
    rfl
  · have hrw : monitor_run (c :: rest) =
        ([Event.readSignal true], LoopStatus.stopped) := by
      simp [monitor_run, hs]
    rw [hrw]
    rfl
